import Mathlib

/-!
Verification development for the execution/risk core of the
Webportal-SingleUser options-trading backend.

The Python sources under `backend/app` are shallowly embedded: Python
`float` is modelled by `ℚ` (the arithmetic relevant to the claims is exact),
Python `int` by `ℤ`, dictionaries by association lists, raised exceptions
by an `Option String` error component (or `Except String`), and the mutable
objects (`RiskManager`, `OrderManager`, `TradingEngine`) by explicit state
records transformed by pure functions.  Wall-clock fields
(`datetime.utcnow()` timestamps, holding times) are outside the embedding
and are omitted from the corresponding records.
-/

namespace Webportal

/-- Python `int(x)` on a real number: truncation toward zero. -/
def pytrunc (q : ℚ) : ℤ := if 0 ≤ q then ⌊q⌋ else ⌈q⌉

/-- Python `needle in haystack` substring test for strings. -/
def strContains (hay needle : String) : Bool := (hay.splitOn needle).length > 1

/-- pandas `DataFrame.tail n`: the last `n` elements of a list. -/
def takeLast {α : Type} (n : ℕ) (l : List α) : List α := l.drop (l.length - n)

/-- Read access `d.get(k)` / `d[k]` on a string-keyed Python dict. -/
def alookup {β : Type} : List (String × β) → String → Option β
  | [], _ => none
  | p :: ps, k => if p.1 == k then some p.2 else alookup ps k

/-- Assignment `d[k] = v` on a string-keyed Python dict: replace in place, else append. -/
def aset {β : Type} (l : List (String × β)) (k : String) (v : β) : List (String × β) :=
  if (alookup l k).isSome then l.map (fun p => if p.1 == k then (k, v) else p)
  else l ++ [(k, v)]

/-- Deletion `del d[k]` on a string-keyed Python dict. -/
def aremove {β : Type} (l : List (String × β)) (k : String) : List (String × β) :=
  l.filter (fun p => !(p.1 == k))

/-- Values appearing in broker messages: Python strings (numeric string
literals carry their rational value in `vNumStr`), ints, floats and `None`. -/
inductive PyVal where
  | vStr (s : String)
  | vNumStr (q : ℚ)
  | vInt (n : ℤ)
  | vFloat (q : ℚ)
  | vNone
deriving DecidableEq

/-- An inbound message: a dict, or some non-dict object (on which `.get`
raises `AttributeError`). -/
inductive PyMsg where
  | dict (entries : List (String × PyVal))
  | other (desc : String)
deriving DecidableEq

/-- `d.get(key)` over the modelled dict entries. -/
def dget (entries : List (String × PyVal)) (key : String) : Option PyVal :=
  alookup entries key

/-- Python truthiness of a value, as used by `all([...])`. -/
def pyTruthy : PyVal → Bool
  | .vStr s => !(s == "")
  | .vNumStr _ => true
  | .vInt n => !(n == 0)
  | .vFloat q => !(q == 0)
  | .vNone => false

/-- Python `str(x)` (canonical print; only the injectivity on the string
values used as dict keys matters to the claims). -/
def pyStr : PyVal → String
  | .vStr s => s
  | .vNumStr q => toString q
  | .vInt n => toString n
  | .vFloat q => toString q
  | .vNone => "None"

/-- Python `str.upper()` (ASCII-relevant part of `String.toUpper`,
written structurally over the character list). -/
def pyUpperString (s : String) : String := String.mk (s.data.map Char.toUpper)

/-- Python `x.upper()`: succeeds on strings, raises `AttributeError` otherwise. -/
def pyStrUpper : PyVal → Except String String
  | .vStr s => .ok (pyUpperString s)
  | .vNumStr q => .ok (toString q)
  | _ => .error "AttributeError: object has no attribute upper"

/-- Python `int(x)`: ints pass through, floats truncate, integral numeric
strings parse, anything else raises. -/
def pyInt : PyVal → Except String ℤ
  | .vInt n => .ok n
  | .vFloat q => .ok (pytrunc q)
  | .vNumStr q => if q.den = 1 then .ok q.num else .error "ValueError: invalid literal for int"
  | .vStr _ => .error "ValueError: invalid literal for int"
  | .vNone => .error "TypeError: int argument must not be None"

/-- Python `float(x)`: numbers and numeric strings convert, anything else raises. -/
def pyFloat : PyVal → Except String ℚ
  | .vInt n => .ok (n : ℚ)
  | .vFloat q => .ok q
  | .vNumStr q => .ok q
  | .vStr _ => .error "ValueError: could not convert string to float"
  | .vNone => .error "TypeError: float argument must not be None"

/-- `core/config.py`: `VolatilityAdjustmentConfig`. -/
structure VolatilityAdjustmentConfig where
  high_vol_threshold_percent : ℚ
  risk_reduction_factor : ℚ
deriving DecidableEq

/-- `core/config.py`: `RiskConfig` (pydantic model).  The `trailing_stop`
dict is modelled as an association list; its contents are unused by the
embedded code. -/
structure RiskConfig where
  risk_per_trade_percent : ℚ
  max_daily_loss_percent : ℚ
  consecutive_losses_stop : ℕ
  trailing_stop : List (String × ℚ)
  take_profit_atr : ℚ
  volatility_adjustment : VolatilityAdjustmentConfig
deriving DecidableEq

/-- The attribute names the pydantic `RiskConfig` model declares
(`core/config.py` lines 29-35).  Attribute access on any other name raises
`AttributeError` at runtime. -/
def RiskConfig.fieldNames : List String :=
  ["risk_per_trade_percent", "max_daily_loss_percent", "consecutive_losses_stop",
   "trailing_stop", "take_profit_atr", "volatility_adjustment"]

/-- `services/risk_manager.py`: the mutable state of `RiskManager`. -/
structure RiskManager where
  initial_equity : ℚ
  equity : ℚ
  risk_params : RiskConfig
  max_daily_loss_value : ℚ
  daily_pnl : ℚ
  consecutive_losses : ℕ
  is_trading_stopped : Bool
  wins : ℕ
  losses : ℕ
  total_win_pnl : ℚ
  total_loss_pnl : ℚ
deriving DecidableEq

/-- `RiskManager.__init__(account_equity)` with the risk section of the
global settings passed explicitly. -/
def RiskManager.init (risk_settings : RiskConfig) (account_equity : ℚ) : RiskManager :=
  { initial_equity := account_equity
    equity := account_equity
    risk_params := risk_settings
    max_daily_loss_value := account_equity * (risk_settings.max_daily_loss_percent / 100)
    daily_pnl := 0
    consecutive_losses := 0
    is_trading_stopped := false
    wins := 0
    losses := 0
    total_win_pnl := 0
    total_loss_pnl := 0 }

/-- The names of the methods and properties `RiskManager` defines
(`services/risk_manager.py`).  `get_account_balance` is not among them,
although `order_manager.py` line 120 calls it. -/
def RiskManager.methodNames : List String :=
  ["total_trades", "win_rate", "avg_win_pnl", "avg_loss_pnl",
   "stop_trading", "record_trade", "calculate_position_size", "can_place_trade"]

/-- `RiskManager.stop_trading(reason)`: sets the one-way kill-switch flag
(the guard `if not self.is_trading_stopped` only avoids duplicate logging). -/
def RiskManager.stop_trading (rm : RiskManager) : RiskManager :=
  { rm with is_trading_stopped := true }

/-- `RiskManager.record_trade(pnl)` (lines 58-78): update P&L and win/loss
statistics, then evaluate the two stop conditions in sequence. -/
def RiskManager.record_trade (rm : RiskManager) (pnl : ℚ) : RiskManager :=
  let rm1 := { rm with daily_pnl := rm.daily_pnl + pnl, equity := rm.equity + pnl }
  let rm2 :=
    if pnl > 0 then
      { rm1 with wins := rm1.wins + 1, total_win_pnl := rm1.total_win_pnl + pnl,
                 consecutive_losses := 0 }
    else if pnl < 0 then
      { rm1 with losses := rm1.losses + 1, total_loss_pnl := rm1.total_loss_pnl + pnl,
                 consecutive_losses := rm1.consecutive_losses + 1 }
    else rm1
  let rm3 := if rm2.daily_pnl ≤ -rm2.max_daily_loss_value then rm2.stop_trading else rm2
  if rm3.consecutive_losses ≥ rm3.risk_params.consecutive_losses_stop then rm3.stop_trading else rm3

/-- A sequence of `record_trade` calls on the same engine instance. -/
def RiskManager.record_trades (rm : RiskManager) (pnls : List ℚ) : RiskManager :=
  pnls.foldl RiskManager.record_trade rm

/-- `RiskManager.calculate_position_size(entry, stop, atr)` (lines 80-99).
Python raises `ZeroDivisionError` on `atr / entry_price` when the entry
price is zero; `int(...)` truncates toward zero. -/
def RiskManager.calculate_position_size (rm : RiskManager)
    (entry_price stop_loss_price atr : ℚ) : Except String ℤ :=
  let base_risk_per_trade := rm.equity * (rm.risk_params.risk_per_trade_percent / 100)
  if entry_price = 0 then .error "ZeroDivisionError: float division by zero"
  else
    let volatility_percent := atr / entry_price * 100
    let vol_adj_params := rm.risk_params.volatility_adjustment
    let risk_per_trade_value :=
      if volatility_percent > vol_adj_params.high_vol_threshold_percent then
        base_risk_per_trade * vol_adj_params.risk_reduction_factor
      else base_risk_per_trade
    let risk_per_share := |entry_price - stop_loss_price|
    if risk_per_share ≤ 1 / 1000000000 then .ok 0
    else .ok (pytrunc (risk_per_trade_value / risk_per_share))

/-- `RiskManager.can_place_trade()` (lines 101-106). -/
def RiskManager.can_place_trade (rm : RiskManager) : Bool :=
  !rm.is_trading_stopped

/-- A row of the `Order` table (`models/trading.py` as used by
`order_manager.py`); `ts` timestamps not modelled. -/
structure Order where
  id : ℕ
  signal_id : Option ℕ
  symbol : String
  side : String
  qty : ℤ
  status : String
  sl : Option ℚ
  tp : Option ℚ
  atr_at_entry : Option ℚ
  confidence : Option ℚ
  reason : Option String
  broker_order_id : Option String
deriving DecidableEq

/-- A row of the `Trade` table (one per fill notification). -/
structure TradeRow where
  order_id : ℕ
  fill_price : ℚ
  qty : ℤ
deriving DecidableEq

/-- A row of the `HistoricalTrade` table; `entry_time`, `exit_time` and
`holding_time_minutes` are wall-clock fields outside the embedding. -/
structure HistoricalTrade where
  symbol : String
  side : String
  qty : ℤ
  entry_price : ℚ
  exit_price : ℚ
  pnl : ℚ
  pnl_percentage : ℚ
deriving DecidableEq

/-- An entry of `OrderManager.open_positions` (the per-symbol position
dict built in `handle_order_update`); `entry_time`, `greeks` and
`confidence` are omitted (wall-clock / logging-only data). -/
structure Position where
  symbol : String
  side : String
  qty : ℤ
  entry_price : ℚ
  sl : Option ℚ
  tp : Option ℚ
  atr_at_entry : Option ℚ
  total_cost : ℚ
deriving DecidableEq

/-- The `order_params` dict built by `create_options_order` and passed to
`connector.place_order`. -/
structure OrderParams where
  variety : String
  tradingsymbol : String
  symboltoken : String
  transactiontype : String
  exchange : String
  ordertype : String
  producttype : String
  duration : String
  quantity : String
deriving DecidableEq

/-- A trading signal dict (`handle_signal` / `create_options_order` /
`calculate_options_position_size` read exactly these keys; `entry` is
optional because `signal['entry']` raises `KeyError` when absent, which
the sizing code catches). -/
structure Signal where
  id : Option ℕ
  symbol : String
  side : String
  entry : Option ℚ
  sl : Option ℚ
  tp : Option ℚ
  atr_at_entry : Option ℚ
  confidence : Option ℚ
  reason : Option String

/-- The observable outcomes of `connector.place_order(order_params)`:
an exception, a falsy response, a truthy response without an `orderid`
(whose `str()` becomes the failure reason), or a broker order id. -/
inductive BrokerResult where
  | raised (msg : String)
  | respFalsy
  | noOrderId (srepr : String)
  | okOrder (oid : String)

/-- The external collaborators of `OrderManager`: the instrument manager's
token lookup and the broker boundary. -/
structure BrokerEnv where
  get_token : String → String → Option String
  place_order : OrderParams → BrokerResult

/-- The mutable state of `OrderManager` together with the database tables
it writes (`orders`, `trades`, `historical_trades`); `placed_params`
records the requests handed to `connector.place_order`. -/
structure OMState where
  risk : RiskManager
  orders : List Order
  trades : List TradeRow
  historical_trades : List HistoricalTrade
  active_orders : List (String × ℕ)
  open_positions : List (String × Position)
  placed_params : List OrderParams
deriving DecidableEq

/-- `Order.__table__.update().where(Order.id == oid).values(status=...)`. -/
def OMState.updateOrderStatus (s : OMState) (oid : ℕ) (status : String) : OMState :=
  { s with orders := s.orders.map (fun o => if o.id == oid then { o with status := status } else o) }

/-- `Order.__table__.update().where(Order.id == oid).values(status="FAILED", reason=...)`. -/
def OMState.setOrderFailed (s : OMState) (oid : ℕ) (why : String) : OMState :=
  { s with orders := s.orders.map (fun o =>
      if o.id == oid then { o with status := "FAILED", reason := some why } else o) }

/-- `Order.__table__.update().where(Order.id == oid).values(broker_order_id=..., status="SUBMITTED")`. -/
def OMState.setOrderSubmitted (s : OMState) (oid : ℕ) (bid : String) : OMState :=
  { s with orders := s.orders.map (fun o =>
      if o.id == oid then { o with status := "SUBMITTED", broker_order_id := some bid } else o) }

/-- `db.fetch_one(Order.__table__.select().where(Order.id == oid))`. -/
def OMState.fetch_order (s : OMState) (oid : ℕ) : Option Order :=
  s.orders.find? (fun o => o.id == oid)

/-- The fields of an order-update message after the unconditional parsing
at the top of `handle_order_update` (lines 166-167): `orderid` as received
and `status` already uppercased. -/
structure ParsedUpdate where
  orderid : Option PyVal
  status : String
  averageprice : Option PyVal
  filledshares : Option PyVal
deriving DecidableEq

/-- Lines 164-167 of `order_manager.py`: `.get` on a non-dict raises, and
`update.get("status", "").upper()` raises on a non-string status. -/
def parse_order_update (m : PyMsg) : Except String ParsedUpdate :=
  match m with
  | .other _ => .error "AttributeError: object has no attribute get"
  | .dict u =>
    match pyStrUpper ((dget u "status").getD (.vStr "")) with
    | .error e => .error e
    | .ok st =>
      .ok { orderid := dget u "orderid", status := st,
            averageprice := dget u "averageprice", filledshares := dget u "filledshares" }

/-- Lines 219-263 of `order_manager.py`: an entry fill (same side as any
open position, or no open position).  `filledshares` is the broker's
cumulative quantity; `averageprice` the cumulative average.  Returns the
new state and, when a conversion raises, the exception (mutations made
before the raise persist, as in Python). -/
def entry_fill (s1 : OMState) (u : ParsedUpdate) (k : String)
    (internal_order_id : ℕ) (order : Order) : OMState × Option String :=
  match pyInt ((u.filledshares).getD (.vInt 0)) with
  | .error e => (s1, some e)
  | .ok fill_qty =>
    match pyFloat ((u.averageprice).getD (.vInt 0)) with
    | .error e => (s1, some e)
    | .ok fill_price =>
      let newTrade : TradeRow :=
        { order_id := internal_order_id, fill_price := fill_price, qty := fill_qty }
      let s2 := { s1 with trades := s1.trades ++ [newTrade] }
      match alookup s2.open_positions order.symbol with
      | none =>
        let pos : Position :=
          { symbol := order.symbol, side := order.side, qty := fill_qty,
            entry_price := fill_price, sl := order.sl, tp := order.tp,
            atr_at_entry := order.atr_at_entry, total_cost := fill_qty * fill_price }
        let s3 := { s2 with open_positions := aset s2.open_positions order.symbol pos }
        (if u.status == "COMPLETE"
         then { s3 with active_orders := aremove s3.active_orders k } else s3, none)
      | some position =>
        let last_fill_qty := fill_qty - position.qty
        if last_fill_qty ≤ 0 then (s2, none)
        else if (fill_qty : ℚ) = 0 then (s2, some "ZeroDivisionError: float division by zero")
        else
          let new_total_cost := fill_price * fill_qty
          let pos2 := { position with
                        entry_price := new_total_cost / (fill_qty : ℚ),
                        qty := fill_qty, total_cost := new_total_cost }
          let s3 := { s2 with open_positions := aset s2.open_positions order.symbol pos2 }
          (if u.status == "COMPLETE"
           then { s3 with active_orders := aremove s3.active_orders k } else s3, none)

/-- Lines 169-263 of `order_manager.py` after parsing: order lookup,
status persistence, and routing of fills to the closing-order or
entry-order branch. -/
def handle_order_update_core (s : OMState) (u : ParsedUpdate) : OMState × Option String :=
  let bid : Option String :=
    match u.orderid with
    | some (.vStr key) => some key
    | _ => none
  match bid with
  | none => (s, none)
  | some k =>
    match alookup s.active_orders k with
    | none => (s, none)
    | some internal_order_id =>
      if internal_order_id = 0 then (s, none)
      else
        let s1 := s.updateOrderStatus internal_order_id u.status
        let is_fill := u.status == "COMPLETE" || u.status == "PARTIALLY FILLED"
        if !is_fill then
          if !(u.status == "OPEN" || u.status == "SUBMITTED") then
            ({ s1 with active_orders := aremove s1.active_orders k }, none)
          else (s1, none)
        else
          match s1.fetch_order internal_order_id with
          | none => (s1, some "AttributeError: NoneType object has no attribute symbol")
          | some order =>
            match alookup s1.open_positions order.symbol with
            | some position =>
              if !(position.side == order.side) then
                if u.status == "COMPLETE" then
                  match pyFloat ((u.averageprice).getD (.vInt 0)) with
                  | .error e => (s1, some e)
                  | .ok exit_price =>
                    let original_qty := position.qty
                    let pnl :=
                      if position.side == "BUY" then
                        (exit_price - position.entry_price) * (original_qty : ℚ)
                      else
                        (position.entry_price - exit_price) * (original_qty : ℚ)
                    if position.entry_price * (original_qty : ℚ) = 0 then
                      (s1, some "ZeroDivisionError: float division by zero")
                    else
                      let trade_log : HistoricalTrade :=
                        { symbol := order.symbol, side := position.side, qty := original_qty,
                          entry_price := position.entry_price, exit_price := exit_price,
                          pnl := pnl,
                          pnl_percentage := pnl / (position.entry_price * (original_qty : ℚ)) * 100 }
                      ({ s1 with historical_trades := s1.historical_trades ++ [trade_log],
                                 risk := s1.risk.record_trade pnl,
                                 open_positions := aremove s1.open_positions order.symbol,
                                 active_orders := aremove s1.active_orders k }, none)
                else (s1, none)
              else entry_fill s1 u k internal_order_id order
            | none => entry_fill s1 u k internal_order_id order

/-- `OrderManager.handle_order_update(update)` (lines 164-263) on a raw
inbound message. -/
def handle_order_update (s : OMState) (m : PyMsg) : OMState × Option String :=
  match parse_order_update m with
  | .error e => (s, some e)
  | .ok u => handle_order_update_core s u

/-- `OrderManager.create_options_order(signal, position_size)` (lines
24-87).  All broker-boundary exceptions are caught inside, so the function
never raises. -/
def create_options_order (s : OMState) (env : BrokerEnv) (signal : Signal)
    (position_size : ℤ) : OMState :=
  let symbol := signal.symbol
  let exchange := "NFO"
  let token := env.get_token symbol exchange
  let order_id := s.orders.length + 1
  let newOrder : Order :=
    { id := order_id, signal_id := signal.id, symbol := symbol, side := signal.side,
      qty := position_size, status := "PENDING", sl := signal.sl, tp := signal.tp,
      atr_at_entry := signal.atr_at_entry, confidence := signal.confidence,
      reason := none, broker_order_id := none }
  let s1 := { s with orders := s.orders ++ [newOrder] }
  match token with
  | none => s1.setOrderFailed order_id "TOKEN_NOT_FOUND"
  | some tok =>
    let order_params : OrderParams :=
      { variety := "NORMAL", tradingsymbol := symbol, symboltoken := tok,
        transactiontype := signal.side, exchange := exchange, ordertype := "MARKET",
        producttype := "INTRADAY", duration := "DAY", quantity := toString position_size }
    let s2 := { s1 with placed_params := s1.placed_params ++ [order_params] }
    match env.place_order order_params with
    | .okOrder broker_order_id =>
      let s3 := { s2 with active_orders := aset s2.active_orders broker_order_id order_id }
      s3.setOrderSubmitted order_id broker_order_id
    | .respFalsy => s2.setOrderFailed order_id "NO_RESPONSE"
    | .noOrderId srepr => s2.setOrderFailed order_id srepr
    | .raised e => s2.setOrderFailed order_id e

/-- Lot sizes hard-coded in `calculate_options_position_size`. -/
def lot_sizes : List (String × ℤ) := [("BANKNIFTY", 15), ("NIFTY", 50), ("FINNIFTY", 40)]

/-- The body of the `try` block of
`OrderManager.calculate_options_position_size` (lines 118-158).  The call
`self.risk_manager.get_account_balance()` raises `AttributeError` because
`RiskManager` defines no such method (see `RiskManager.methodNames`); the
continuation after it is therefore dead code at runtime but is embedded
anyway.  The account balance an implementation would return is passed in
for that dead continuation. -/
def calculate_options_position_size_body (cfg : RiskConfig) (signal : Signal) : Except String ℤ := do
  let entry_price ← match signal.entry with
    | some q => Except.ok q
    | none => Except.error "KeyError: entry"
  let account_balance ←
    if RiskManager.methodNames.contains "get_account_balance" then Except.ok (0 : ℚ)
    else Except.error "AttributeError: RiskManager object has no attribute get_account_balance"
  let risk_amount := account_balance * (cfg.risk_per_trade_percent / 100)
  match lot_sizes.find? (fun p => strContains signal.symbol p.1) with
  | none => Except.ok 0
  | some idx =>
    let lot_size := idx.2
    let premium_per_lot := entry_price * (lot_size : ℚ)
    if premium_per_lot = 0 then Except.error "ZeroDivisionError: float division by zero"
    else
      let max_lots := pytrunc (risk_amount / premium_per_lot)
      let lots := max 1 (min max_lots 3)
      Except.ok (lots * lot_size)

/-- `OrderManager.calculate_options_position_size(signal)` (lines 116-162):
the enclosing `try/except` turns every exception into a size of 0. -/
def calculate_options_position_size (cfg : RiskConfig) (signal : Signal) : ℤ :=
  match calculate_options_position_size_body cfg signal with
  | .ok n => n
  | .error _ => 0

/-- The attribute access `settings.risk.max_positions` in `handle_signal`
(line 104): pydantic raises `AttributeError` for an attribute the model
does not declare, and `RiskConfig` does not declare `max_positions`, so
the `.ok` branch (whose value is irrelevant) is unreachable. -/
def riskAttrMaxPositions : Except String ℕ :=
  if RiskConfig.fieldNames.contains "max_positions" then Except.ok 0
  else Except.error "AttributeError: RiskConfig object has no attribute max_positions"

/-- `OrderManager.handle_signal(signal)` (lines 89-114).  Returns the new
state and the uncaught exception, if one is raised. -/
def handle_signal (s : OMState) (env : BrokerEnv) (cfg : RiskConfig)
    (signal : Signal) : OMState × Option String :=
  if (alookup s.open_positions signal.symbol).isSome then (s, none)
  else if !(s.risk.can_place_trade) then (s, none)
  else
    match riskAttrMaxPositions with
    | .error e => (s, some e)
    | .ok max_positions =>
      if s.open_positions.length ≥ max_positions then (s, none)
      else
        let position_size := calculate_options_position_size cfg signal
        if position_size > 0 then (create_options_order s env signal position_size, none)
        else (s, none)

/-- `OrderManager.close_position(position, reason)` (lines 268-282): a
synthetic always-`SELL` market signal for the full open quantity, routed
through `create_options_order`. -/
def close_position (s : OMState) (env : BrokerEnv) (position : Position)
    (why : String) : OMState :=
  let closing_signal : Signal :=
    { id := none, symbol := position.symbol, side := "SELL", entry := some 0,
      sl := none, tp := none, atr_at_entry := none, confidence := none,
      reason := some ("CLOSE_" ++ why) }
  create_options_order s env closing_signal position.qty

/-- A row of a per-symbol `live_ticks` DataFrame: exchange timestamp in
seconds, price and volume as received (pandas stores the raw objects). -/
structure TickRow where
  ts : ℚ
  price : PyVal
  volume : PyVal
deriving DecidableEq

/-- One row of a resampled 1-minute OHLCV frame (`minute` is the
minute-aligned bucket `⌊ts / 60⌋`; empty gap minutes are not modelled). -/
structure CandleRow where
  minute : ℤ
  o : ℚ
  h : ℚ
  l : ℚ
  c : ℚ
  volume : ℚ
deriving DecidableEq

/-- The live-data state of `TradingEngine` used by tick aggregation.
`strategy_has_atr_period` records `hasattr(self.strategy, "atr_period")`,
which line 163-164 of `trading_engine.py` tests before evaluating the
undefined name `df`. -/
structure EngineState where
  token_to_symbol_map : List (String × String)
  live_ticks : List (String × List TickRow)
  candles : List (String × List CandleRow)
  strategy_has_atr_period : Bool
deriving DecidableEq

/-- `pd.to_datetime(x, unit="s")`: numbers and numeric strings convert to
a timestamp, `None` gives `NaT` (modelled as `none`), other strings raise. -/
def pyToDatetime : PyVal → Except String (Option ℚ)
  | .vNone => .ok none
  | .vInt n => .ok (some (n : ℚ))
  | .vFloat q => .ok (some q)
  | .vNumStr q => .ok (some q)
  | .vStr _ => .error "ValueError: could not convert to datetime"

/-- The numeric value of a pandas cell, when the stored object is a number
(numbers stored as strings stay strings in the frame and are not numeric). -/
def numQ : PyVal → Option ℚ
  | .vInt n => some (n : ℚ)
  | .vFloat q => some q
  | _ => none

/-- The minute bucket a tick falls into. -/
def tickMinute (t : TickRow) : ℤ := ⌊t.ts / 60⌋

/-- Stable insertion by timestamp (pandas resampling sorts by the
timestamp index). -/
def insertByTs (t : TickRow) : List TickRow → List TickRow
  | [] => [t]
  | u :: us => if u.ts ≤ t.ts then u :: insertByTs t us else t :: u :: us

/-- Stable sort of a tick frame by timestamp. -/
def sortByTs (l : List TickRow) : List TickRow := l.foldr insertByTs []

/-- OHLCV over the (chronologically sorted, nonempty) prices of one minute. -/
def candleOf (m : ℤ) (prices : List ℚ) (vols : List ℚ) : CandleRow :=
  match prices with
  | [] => { minute := m, o := 0, h := 0, l := 0, c := 0, volume := vols.sum }
  | p0 :: ps =>
    { minute := m, o := p0, h := ps.foldl max p0, l := ps.foldl min p0,
      c := ps.foldl (fun _ x => x) p0, volume := vols.sum }

/-- `resample("1Min").ohlc()` plus the volume sum: group the sorted ticks
by minute and build one candle per occupied minute.  Raises when the frame
holds non-numeric prices or volumes. -/
def ohlcResample (rows : List TickRow) : Except String (List CandleRow) :=
  if rows.all (fun r => (numQ r.price).isSome && (numQ r.volume).isSome) then
    let sorted := sortByTs rows
    let minutes := (sorted.map tickMinute).dedup
    .ok (minutes.map (fun m =>
      let g := sorted.filter (fun r => tickMinute r == m)
      candleOf m (g.map (fun r => (numQ r.price).getD 0)) (g.map (fun r => (numQ r.volume).getD 0))))
  else .error "DataError: non-numeric values in ohlc aggregation"

/-- The body of the `try` block of
`TradingEngine._aggregate_tick_to_candle(tick)` (lines 139-169): field
extraction and the `all` completeness check, token-to-symbol lookup, tick
append, resampling, the `hasattr`-guarded line that evaluates the
undefined name `df`, candle assignment, and the 105-minute buffer trim.
Mutations made before a raise persist, as in Python. -/
def aggregate_tick_to_candle_body (e : EngineState) (m : PyMsg) : EngineState × Option String :=
  match m with
  | .other _ => (e, some "AttributeError: object has no attribute get")
  | .dict t =>
    let token := dget t "token"
    let price := dget t "last_traded_price"
    let volume := dget t "last_traded_quantity"
    match pyToDatetime ((dget t "exchange_timestamp").getD .vNone) with
    | .error err => (e, some err)
    | .ok tso =>
      match tso with
      | none => (e, none)
      | some ts =>
        if !(((token.map pyTruthy).getD false) && ((price.map pyTruthy).getD false)
              && ((volume.map pyTruthy).getD false)) then (e, none)
        else
          match alookup e.token_to_symbol_map (pyStr (token.getD .vNone)) with
          | none => (e, none)
          | some symbol =>
            match alookup e.live_ticks symbol with
            | none => (e, some "KeyError: live_ticks")
            | some rows =>
              let rows2 := rows ++ [{ ts := ts, price := price.getD .vNone, volume := volume.getD .vNone }]
              let e1 := { e with live_ticks := aset e.live_ticks symbol rows2 }
              match ohlcResample rows2 with
              | .error err => (e1, some err)
              | .ok resampled =>
                if e1.strategy_has_atr_period then (e1, some "NameError: name df is not defined")
                else
                  let e2 := { e1 with candles := aset e1.candles symbol (takeLast 100 resampled) }
                  let cutoff := ts - 105 * 60
                  ({ e2 with live_ticks := aset e2.live_ticks symbol (rows2.filter (fun r => cutoff < r.ts)) },
                   none)

/-- `TradingEngine._aggregate_tick_to_candle(tick)`: the enclosing
`try/except Exception` swallows every exception, keeping the mutations
made before the raise. -/
def aggregate_tick_to_candle (e : EngineState) (m : PyMsg) : EngineState :=
  (aggregate_tick_to_candle_body e m).1

/-- A consuming loop over a queue of inbound messages with the `try`
around the whole `async for`: an exception raised by the step handler ends
the loop (the remaining messages are returned un-processed as `some rest`;
`none` means the loop drained the list). -/
def runConsumerLoop {σ μ : Type} (step : σ → μ → σ × Option String) :
    σ → List μ → σ × Option (List μ)
  | s, [] => (s, none)
  | s, m :: ms =>
    match step s m with
    | (s1, none) => runConsumerLoop step s1 ms
    | (s1, some _) => (s1, some ms)

/-- `TradingEngine._process_order_updates` (lines 109-120): each message
goes to `OrderManager.handle_order_update`, whose exceptions reach the
`try` wrapped around the whole loop, stopping the engine. -/
def process_order_updates (s : OMState) (msgs : List PyMsg) : OMState × Option (List PyMsg) :=
  runConsumerLoop handle_order_update s msgs

/-- `TradingEngine._process_market_data` (lines 122-133): each message
goes to `_aggregate_tick_to_candle`, which never raises, so the loop
drains every message. -/
def process_market_data (e : EngineState) (msgs : List PyMsg) : EngineState × Option (List PyMsg) :=
  runConsumerLoop (fun s m => (aggregate_tick_to_candle s m, none)) e msgs

/-- A buffered tick of the spec-modelled market-data aggregator (§4.3):
exchange timestamp in whole seconds and a price. -/
structure SpecTick where
  ts : ℕ
  price : ℚ
deriving DecidableEq

/-- A persisted candle of the spec-modelled aggregator, keyed by symbol
and minute. -/
structure SpecCandle where
  symbol : String
  minute : ℕ
  o : ℚ
  h : ℚ
  l : ℚ
  c : ℚ
  volume : ℚ
deriving DecidableEq

/-- The spec-modelled aggregator state: per-symbol tick buffers and the
candle store. -/
structure MDStore where
  buffers : List (String × List SpecTick)
  candle_store : List SpecCandle
deriving DecidableEq

/-- OHLC over the prices of one completed minute of the spec-modelled
aggregator, with the tick price doubling as placeholder volume (§4.3). -/
def mkSpecCandle (symbol : String) (m : ℕ) (prices : List ℚ) : SpecCandle :=
  match prices with
  | [] => { symbol := symbol, minute := m, o := 0, h := 0, l := 0, c := 0, volume := 0 }
  | p0 :: ps =>
    { symbol := symbol, minute := m, o := p0, h := ps.foldl max p0, l := ps.foldl min p0,
      c := ps.foldl (fun _ x => x) p0, volume := (p0 :: ps).sum }

/-- Modelled from the spec: `MarketDataManager.get_1m_candle(symbol)` is
invoked from `OptionsScalpingStrategy.scan_for_options_signals`
(`strategy.py` line 225) but no such method exists anywhere under `src/`
(`MarketDataManager` in `market_data_manager.py` does not define it).
Following §4.3 of the spec: resample the buffered ticks into minute
bars, return only the most recently completed minute (never the minute
`now` falls in), persist it only after an existence check on the
symbol+minute key, and trim the buffer to the ticks of the current
(incomplete) minute. -/
def get_1m_candle (st : MDStore) (symbol : String) (now : ℕ) : MDStore × Option SpecCandle :=
  let cur := now / 60
  let buf := (alookup st.buffers symbol).getD []
  let completed := buf.filter (fun t => t.ts / 60 < cur)
  match completed with
  | [] => (st, none)
  | t0 :: ts0 =>
    let m := (ts0.map (fun t => t.ts / 60)).foldl max (t0.ts / 60)
    let mticks := completed.filter (fun t => t.ts / 60 == m)
    let candle := mkSpecCandle symbol m (mticks.map (fun t => t.price))
    let store2 :=
      if st.candle_store.any (fun k => k.symbol == symbol && k.minute == m) then st.candle_store
      else st.candle_store ++ [candle]
    let buf2 := buf.filter (fun t => t.ts / 60 == cur)
    ({ buffers := aset st.buffers symbol buf2, candle_store := store2 }, some candle)

/-- A concrete risk configuration used by the scenario conjuncts and
witnesses: 1% risk per trade, 2% max daily loss, stop after 3 consecutive
losses, volatility threshold 1.5% with reduction factor 0.5. -/
def cfg0 : RiskConfig :=
  { risk_per_trade_percent := 1
    max_daily_loss_percent := 2
    consecutive_losses_stop := 3
    trailing_stop := []
    take_profit_atr := 2
    volatility_adjustment := { high_vol_threshold_percent := 3/2, risk_reduction_factor := 1/2 } }

/-- A broker boundary that resolves every token and accepts every order. -/
def envOk : BrokerEnv :=
  { get_token := fun _ _ => some "40612", place_order := fun _ => .okOrder "BID1" }

/-- A broker boundary that cannot resolve any instrument token. -/
def envNoToken : BrokerEnv :=
  { get_token := fun _ _ => none, place_order := fun _ => .okOrder "BID1" }

/-- An `OMState` with no orders, trades or positions and a fresh
100000-equity risk engine. -/
def emptyState : OMState :=
  { risk := RiskManager.init cfg0 100000, orders := [], trades := [],
    historical_trades := [], active_orders := [], open_positions := [],
    placed_params := [] }

/-- The submitted BUY entry order of the partial-fill scenario (mirrors
`test_handle_order_update_partial_fills`). -/
def orderA : Order :=
  { id := 1, signal_id := none, symbol := "TEST-PARTIAL-EQ", side := "BUY", qty := 100,
    status := "SUBMITTED", sl := some 95, tp := some 110, atr_at_entry := some 1,
    confidence := none, reason := none, broker_order_id := some "B456" }

/-- State before the partial-fill scenario: `orderA` active under broker
id `B456`, no open position. -/
def stFill : OMState :=
  { emptyState with orders := [orderA], active_orders := [("B456", 1)] }

/-- First scenario update: `PARTIALLY FILLED`, cumulative qty 40 at
average price 100.00. -/
def updFill1 : PyMsg :=
  .dict [("orderid", .vStr "B456"), ("status", .vStr "PARTIALLY FILLED"),
         ("averageprice", .vNumStr 100), ("filledshares", .vNumStr 40)]

/-- Second scenario update: `COMPLETE`, cumulative qty 100 at cumulative
average price 100.60. -/
def updFill2 : PyMsg :=
  .dict [("orderid", .vStr "B456"), ("status", .vStr "COMPLETE"),
         ("averageprice", .vNumStr (503/5)), ("filledshares", .vNumStr 100)]

/-- The SELL order closing the open BUY position in the exit-fill
scenario. -/
def orderClose : Order :=
  { id := 1, signal_id := none, symbol := "TEST-EQ", side := "SELL", qty := 100,
    status := "SUBMITTED", sl := none, tp := none, atr_at_entry := none,
    confidence := none, reason := none, broker_order_id := some "B789" }

/-- The open BUY position (qty 100, entry 100.50) of the exit-fill
scenario. -/
def posBuy : Position :=
  { symbol := "TEST-EQ", side := "BUY", qty := 100, entry_price := 201/2,
    sl := some 95, tp := some 110, atr_at_entry := some 1, total_cost := 10050 }

/-- State before the exit-fill scenario: open BUY position and active
closing SELL order. -/
def stExit : OMState :=
  { emptyState with
    orders := [orderClose], active_orders := [("B789", 1)],
    open_positions := [("TEST-EQ", posBuy)] }

/-- The `COMPLETE` SELL fill at 102.00 closing the scenario position. -/
def updExit : PyMsg :=
  .dict [("orderid", .vStr "B789"), ("status", .vStr "COMPLETE"),
         ("averageprice", .vNumStr 102), ("filledshares", .vNumStr 100)]

/-- A fresh options signal for a symbol with no open position. -/
def sigNifty : Signal :=
  { id := some 7, symbol := "NIFTY2461923500CE", side := "BUY", entry := some 100,
    sl := some 90, tp := some 120, atr_at_entry := some 2, confidence := some 8,
    reason := none }

/-- An open position on an unrelated symbol, used to exercise the
account-wide position-cap check. -/
def posOther : Position :=
  { symbol := "BANKNIFTY2461950000CE", side := "BUY", qty := 15, entry_price := 200,
    sl := none, tp := none, atr_at_entry := none, total_cost := 3000 }

/-- State with one open position on an unrelated symbol. -/
def stOnePos : OMState :=
  { emptyState with open_positions := [("BANKNIFTY2461950000CE", posOther)] }

/-- A signal for the symbol that is already open in `stOnePos`. -/
def sigBank : Signal :=
  { id := some 9, symbol := "BANKNIFTY2461950000CE", side := "BUY", entry := some 200,
    sl := some 180, tp := some 240, atr_at_entry := some 3, confidence := some 7,
    reason := none }

/-- An open SELL position, used to refute the opposite-side claim about
`close_position`. -/
def posSell : Position :=
  { symbol := "NIFTY2461923500PE", side := "SELL", qty := 50, entry_price := 80,
    sl := none, tp := none, atr_at_entry := none, total_cost := 4000 }

/-- A malformed order update: its `status` value is an `int`, so
`update.get("status", "").upper()` raises `AttributeError`. -/
def badOrderMsg : PyMsg := .dict [("orderid", .vStr "B1"), ("status", .vInt 5)]

/-- A well-formed benign order update (status `OPEN` for the active
order). -/
def goodOrderMsg : PyMsg := .dict [("orderid", .vStr "B1"), ("status", .vStr "OPEN")]

/-- State with one active order under broker id `B1`. -/
def stLoop : OMState :=
  { emptyState with
    orders := [{ orderA with broker_order_id := some "B1" }],
    active_orders := [("B1", 1)] }

/-- A tick buffer for the candle-idempotence witness: two ticks in minute
1, one tick in the in-progress minute 2. -/
def mdStore0 : MDStore :=
  { buffers := [("NIFTY", [{ ts := 61, price := 100 }, { ts := 65, price := 101 },
                           { ts := 130, price := 102 }])],
    candle_store := [] }

/-- Field-by-field characterization of one `record_trade` step. -/
theorem record_trade_proj (rm : RiskManager) (pnl : ℚ) :
    (rm.record_trade pnl).daily_pnl = rm.daily_pnl + pnl ∧
    (rm.record_trade pnl).equity = rm.equity + pnl ∧
    (rm.record_trade pnl).max_daily_loss_value = rm.max_daily_loss_value ∧
    (rm.record_trade pnl).risk_params = rm.risk_params ∧
    (rm.record_trade pnl).wins = (if pnl > 0 then rm.wins + 1 else rm.wins) ∧
    (rm.record_trade pnl).losses = (if pnl < 0 then rm.losses + 1 else rm.losses) ∧
    (rm.record_trade pnl).total_win_pnl =
      (if pnl > 0 then rm.total_win_pnl + pnl else rm.total_win_pnl) ∧
    (rm.record_trade pnl).total_loss_pnl =
      (if pnl < 0 then rm.total_loss_pnl + pnl else rm.total_loss_pnl) ∧
    (rm.record_trade pnl).consecutive_losses =
      (if pnl > 0 then 0 else if pnl < 0 then rm.consecutive_losses + 1
       else rm.consecutive_losses) := by
  simp only [RiskManager.record_trade, RiskManager.stop_trading]
  split_ifs <;> simp_all <;> linarith

/-- `record_trade` never clears the kill switch. -/
theorem record_trade_keeps_stopped (rm : RiskManager) (pnl : ℚ)
    (h : rm.is_trading_stopped = true) :
    (rm.record_trade pnl).is_trading_stopped = true := by
  simp only [RiskManager.record_trade, RiskManager.stop_trading]
  split_ifs <;> simp_all

/-- No sequence of `record_trade` calls clears the kill switch. -/
theorem record_trades_keeps_stopped (later : List ℚ) :
    ∀ rm : RiskManager, rm.is_trading_stopped = true →
      (rm.record_trades later).is_trading_stopped = true := by
  induction later with
  | nil => intro rm h; simpa [RiskManager.record_trades] using h
  | cons x xs ih =>
    intro rm h
    have hx := record_trade_keeps_stopped rm x h
    simpa [RiskManager.record_trades, List.foldl_cons] using ih _ hx

/-- A `record_trade` step whose post-state satisfies either stop condition
sets the kill switch. -/
theorem record_trade_trips (rm : RiskManager) (pnl : ℚ)
    (h : (rm.record_trade pnl).daily_pnl ≤ -(rm.record_trade pnl).max_daily_loss_value ∨
         (rm.record_trade pnl).consecutive_losses ≥
           (rm.record_trade pnl).risk_params.consecutive_losses_stop) :
    (rm.record_trade pnl).is_trading_stopped = true := by
  simp only [RiskManager.record_trade, RiskManager.stop_trading] at h ⊢
  split_ifs at h ⊢ <;> simp_all <;>
    first
      | linarith
      | omega
      | (rcases h with h | h <;> first | linarith | omega)

/-- C1.  Kill-switch latch: a `record_trade` call after which the daily
loss has reached the configured max-daily-loss-value, or the consecutive
losses have reached the configured threshold, invokes `stop_trading`, and
every later `record_trade` sequence (winning trades included) leaves
`can_place_trade()` false; nothing but constructing a new engine resets
the flag. -/
theorem C1_kill_switch_latch (rm : RiskManager) (pnl : ℚ) (later : List ℚ)
    (h : (rm.record_trade pnl).daily_pnl ≤ -(rm.record_trade pnl).max_daily_loss_value ∨
         (rm.record_trade pnl).consecutive_losses ≥
           (rm.record_trade pnl).risk_params.consecutive_losses_stop) :
    (rm.record_trade pnl).is_trading_stopped = true ∧
    ((rm.record_trade pnl).record_trades later).can_place_trade = false := by
  have hs := record_trade_trips rm pnl h
  have hl := record_trades_keeps_stopped later _ hs
  exact ⟨hs, by simp [RiskManager.can_place_trade, hl]⟩

/-- Witness for C1: equity 1000 under `cfg0` stops at a 25 loss (max
daily loss 20), and two later winning trades do not re-enable trading. -/
theorem C1_kill_switch_latch_witness :
    (((RiskManager.init cfg0 1000).record_trade (-25)).record_trades [100, 100]).can_place_trade
      = false :=
  (C1_kill_switch_latch (RiskManager.init cfg0 1000) (-25) [100, 100]
    (Or.inl (by norm_num [RiskManager.record_trade, RiskManager.stop_trading,
                          RiskManager.init, cfg0]))).2

/-- C5.  `record_trade(pnl)` adds `pnl` to equity and daily P&L; a win
increments the win counter and win P&L and zeroes the consecutive-loss
counter; a loss increments the loss counter, loss P&L and the
consecutive-loss counter by exactly one; a zero P&L changes no counter. -/
theorem C5_record_trade_statistics (rm : RiskManager) (pnl : ℚ) :
    ((rm.record_trade pnl).equity = rm.equity + pnl ∧
     (rm.record_trade pnl).daily_pnl = rm.daily_pnl + pnl) ∧
    (pnl > 0 →
      (rm.record_trade pnl).wins = rm.wins + 1 ∧
      (rm.record_trade pnl).total_win_pnl = rm.total_win_pnl + pnl ∧
      (rm.record_trade pnl).consecutive_losses = 0 ∧
      (rm.record_trade pnl).losses = rm.losses ∧
      (rm.record_trade pnl).total_loss_pnl = rm.total_loss_pnl) ∧
    (pnl < 0 →
      (rm.record_trade pnl).losses = rm.losses + 1 ∧
      (rm.record_trade pnl).total_loss_pnl = rm.total_loss_pnl + pnl ∧
      (rm.record_trade pnl).consecutive_losses = rm.consecutive_losses + 1 ∧
      (rm.record_trade pnl).wins = rm.wins ∧
      (rm.record_trade pnl).total_win_pnl = rm.total_win_pnl) ∧
    (pnl = 0 →
      (rm.record_trade pnl).wins = rm.wins ∧
      (rm.record_trade pnl).losses = rm.losses ∧
      (rm.record_trade pnl).consecutive_losses = rm.consecutive_losses) := by
  obtain ⟨hd, he, _, _, hw, hl, htw, htl, hc⟩ := record_trade_proj rm pnl
  refine ⟨⟨he, hd⟩, ?_, ?_, ?_⟩
  · intro hp
    have hnl : ¬pnl < 0 := by linarith
    rw [hw, hl, htw, htl, hc]
    simp [hp, hnl]
  · intro hn
    have hnp : ¬pnl > 0 := by linarith
    rw [hw, hl, htw, htl, hc]
    simp [hn, hnp]
  · intro hz
    have hnp : ¬pnl > 0 := by simp [hz]
    have hnl : ¬pnl < 0 := by simp [hz]
    rw [hw, hl, hc]
    simp [hnp, hnl]

/-- Witness for C5 at a winning trade of 5 on a fresh engine. -/
theorem C5_record_trade_statistics_witness :
    ((RiskManager.init cfg0 1000).record_trade 5).wins = (RiskManager.init cfg0 1000).wins + 1 :=
  (((C5_record_trade_statistics (RiskManager.init cfg0 1000) 5).2.1) (by norm_num)).1

/-- C6.  `calculate_position_size` returns the floor of risk amount over
`|entry − stop|`, the risk amount being equity × risk-per-trade-percent,
cut by the reduction factor when `atr / entry` (in percent) exceeds the
high-volatility threshold, and 0 when the denominator is ~0; with equity
100000, 1% risk, entry 100, stop 98 it returns 500 below the threshold
and 250 above it with factor 0.5. -/
theorem C6_position_sizing :
    (∀ (rm : RiskManager) (entry stop atr : ℚ),
        entry ≠ 0 →
        0 ≤ rm.equity * (rm.risk_params.risk_per_trade_percent / 100) →
        0 ≤ rm.risk_params.volatility_adjustment.risk_reduction_factor →
        rm.calculate_position_size entry stop atr =
          .ok (if |entry - stop| ≤ 1 / 1000000000 then 0
               else
                 ⌊(if atr / entry * 100 >
                      rm.risk_params.volatility_adjustment.high_vol_threshold_percent
                   then rm.equity * (rm.risk_params.risk_per_trade_percent / 100) *
                        rm.risk_params.volatility_adjustment.risk_reduction_factor
                   else rm.equity * (rm.risk_params.risk_per_trade_percent / 100)) /
                  |entry - stop|⌋)) ∧
    (RiskManager.init cfg0 100000).calculate_position_size 100 98 1 = .ok 500 ∧
    (RiskManager.init cfg0 100000).calculate_position_size 100 98 2 = .ok 250 := by
  refine ⟨?_, by norm_num [RiskManager.calculate_position_size, RiskManager.init, cfg0, pytrunc],
          by norm_num [RiskManager.calculate_position_size, RiskManager.init, cfg0, pytrunc]⟩
  intro rm entry stop atr h0 hbase hfac
  simp only [RiskManager.calculate_position_size, if_neg h0]
  split_ifs with hs hv
  · rfl
  · have hq : (0:ℚ) ≤ rm.equity * (rm.risk_params.risk_per_trade_percent / 100) *
        rm.risk_params.volatility_adjustment.risk_reduction_factor / |entry - stop| :=
      div_nonneg (mul_nonneg hbase hfac) (abs_nonneg _)
    rw [pytrunc, if_pos hq]
  · have hq : (0:ℚ) ≤ rm.equity * (rm.risk_params.risk_per_trade_percent / 100) /
        |entry - stop| := div_nonneg hbase (abs_nonneg _)
    rw [pytrunc, if_pos hq]

/-- Replacing an existing key with `aset` makes it look up to the new value. -/
theorem alookup_map_set {β : Type} (k : String) (v : β) : ∀ l : List (String × β),
    (alookup l k).isSome = true →
    alookup (l.map (fun p => if p.1 == k then (k, v) else p)) k = some v := by
  intro l
  induction l with
  | nil => intro h; simp [alookup] at h
  | cons p ps ih =>
    intro h
    by_cases hk : (p.1 == k) = true
    · simp [alookup, hk]
    · have hk2 : (p.1 == k) = false := by simpa using hk
      simp only [alookup, hk2, if_false, List.map_cons, Bool.false_eq_true] at h ⊢
      exact ih h

/-- Appending a fresh key with `aset` makes it look up to the new value. -/
theorem alookup_append_of_none {β : Type} (k : String) (v : β) : ∀ l : List (String × β),
    alookup l k = none → alookup (l ++ [(k, v)]) k = some v := by
  intro l
  induction l with
  | nil => intro _; simp [alookup]
  | cons p ps ih =>
    intro h
    by_cases hk : (p.1 == k) = true
    · simp [alookup, hk] at h
    · have hk2 : (p.1 == k) = false := by simpa using hk
      simp only [alookup, hk2, if_false, List.cons_append, Bool.false_eq_true] at h ⊢
      exact ih h

/-- `aset` always makes its key look up to the assigned value. -/
theorem alookup_aset_self {β : Type} (l : List (String × β)) (k : String) (v : β) :
    alookup (aset l k v) k = some v := by
  unfold aset
  split_ifs with h
  · exact alookup_map_set k v l h
  · exact alookup_append_of_none k v l (by simpa [Option.not_isSome_iff_eq_none] using h)

/-- A key deleted with `aremove` no longer looks up. -/
theorem alookup_aremove_self {β : Type} (k : String) : ∀ l : List (String × β),
    alookup (aremove l k) k = none := by
  intro l
  induction l with
  | nil => rfl
  | cons p ps ih =>
    by_cases hk : (p.1 == k) = true
    · simpa [aremove, List.filter_cons, hk] using ih
    · have hk2 : (p.1 == k) = false := by simpa using hk
      simpa [aremove, List.filter_cons, hk2, alookup] using ih

/-- Updating an order status keeps the order findable, with only its
status changed. -/
theorem find_orders_update (oid : ℕ) (st : String) (o : Order) : ∀ l : List Order,
    l.find? (fun x => x.id == oid) = some o →
    (l.map (fun x => if x.id == oid then { x with status := st } else x)).find?
        (fun x => x.id == oid) = some { o with status := st } := by
  intro l
  induction l with
  | nil => intro h; simp at h
  | cons a as ih =>
    intro h
    by_cases ha : (a.id == oid) = true
    · simp only [List.find?, ha] at h
      injection h with h
      subst h
      simp [List.find?, ha]
    · have hb : (a.id == oid) = false := by simpa using ha
      simp only [List.find?, hb, Bool.false_eq_true] at h
      simp only [List.map_cons, if_neg (by simp [hb] : ¬((a.id == oid) = true))]
      simp only [List.find?, hb, Bool.false_eq_true]
      exact ih h

/-- `updateOrderStatus` through `fetch_order`. -/
theorem fetch_order_updateOrderStatus (s : OMState) (oid : ℕ) (st : String) (o : Order)
    (h : s.fetch_order oid = some o) :
    (s.updateOrderStatus oid st).fetch_order oid = some { o with status := st } := by
  unfold OMState.fetch_order at h
  unfold OMState.fetch_order OMState.updateOrderStatus
  exact find_orders_update oid st o s.orders h

/-- `updateOrderStatus` only touches the orders table. -/
theorem updateOrderStatus_open_positions (s : OMState) (oid : ℕ) (st : String) :
    (s.updateOrderStatus oid st).open_positions = s.open_positions := rfl

/-- A well-addressed fill on an order whose side matches any open position
for its symbol (or with no open position) routes to the entry-fill branch,
after the status write. -/
theorem core_routes_to_entry (s : OMState) (u : ParsedUpdate) (k : String) (oid : ℕ)
    (order : Order)
    (h1 : u.orderid = some (.vStr k))
    (h2 : alookup s.active_orders k = some oid)
    (h3 : oid ≠ 0)
    (h4 : u.status = "COMPLETE" ∨ u.status = "PARTIALLY FILLED")
    (h5 : s.fetch_order oid = some order)
    (h6 : ∀ pos, alookup s.open_positions order.symbol = some pos → pos.side = order.side) :
    handle_order_update_core s u =
      entry_fill (s.updateOrderStatus oid u.status) u k oid { order with status := u.status } := by
  have hfill : (u.status == "COMPLETE" || u.status == "PARTIALLY FILLED") = true := by
    rcases h4 with h | h <;> simp [h]
  have h5b := fetch_order_updateOrderStatus s oid u.status order h5
  unfold handle_order_update_core
  rw [h1]
  dsimp only
  rw [h2]
  dsimp only
  rw [if_neg h3]
  simp only [hfill, Bool.not_true, Bool.false_eq_true, if_false]
  rw [h5b]
  dsimp only
  rw [updateOrderStatus_open_positions]
  cases hpos : alookup s.open_positions order.symbol with
  | none => rfl
  | some pos =>
    have hside : (pos.side == order.side) = true := by simp [h6 pos hpos]
    dsimp only
    simp only [hside, Bool.not_true, Bool.false_eq_true, if_false]

/-- Evaluation of `entry_fill` when no position is open for the symbol:
the first fill creates the position from the broker-reported cumulative
quantity and average price. -/
theorem entry_fill_first (s1 : OMState) (u : ParsedUpdate) (k : String) (oid : ℕ)
    (order : Order) (fq : ℤ) (fp : ℚ)
    (hfs : pyInt ((u.filledshares).getD (.vInt 0)) = .ok fq)
    (hap : pyFloat ((u.averageprice).getD (.vInt 0)) = .ok fp)
    (hnone : alookup s1.open_positions order.symbol = none) :
    (entry_fill s1 u k oid order).2 = none ∧
    alookup (entry_fill s1 u k oid order).1.open_positions order.symbol =
      some { symbol := order.symbol, side := order.side, qty := fq, entry_price := fp,
             sl := order.sl, tp := order.tp, atr_at_entry := order.atr_at_entry,
             total_cost := (fq : ℚ) * fp } := by
  unfold entry_fill
  rw [hfs]
  dsimp only
  rw [hap]
  dsimp only
  rw [hnone]
  dsimp only
  constructor
  · rfl
  · rw [apply_ite OMState.open_positions]
    dsimp only
    rw [ite_self]
    exact alookup_aset_self _ _ _

/-- Evaluation of `entry_fill` on a later fill of the same order: the
tracked quantity is diffed against the new cumulative total, and the
position is overwritten with the broker cumulative quantity and cost. -/
theorem entry_fill_subsequent (s1 : OMState) (u : ParsedUpdate) (k : String) (oid : ℕ)
    (order : Order) (fq : ℤ) (fp : ℚ) (position : Position)
    (hfs : pyInt ((u.filledshares).getD (.vInt 0)) = .ok fq)
    (hap : pyFloat ((u.averageprice).getD (.vInt 0)) = .ok fp)
    (hsome : alookup s1.open_positions order.symbol = some position)
    (hlt : position.qty < fq) (hq : fq ≠ 0) :
    (entry_fill s1 u k oid order).2 = none ∧
    alookup (entry_fill s1 u k oid order).1.open_positions order.symbol =
      some { position with
             entry_price := fp * (fq : ℚ) / (fq : ℚ), qty := fq,
             total_cost := fp * (fq : ℚ) } := by
  have hq0 : ¬((fq : ℚ) = 0) := by
    simpa using hq
  unfold entry_fill
  rw [hfs]
  dsimp only
  rw [hap]
  dsimp only
  rw [hsome]
  dsimp only
  rw [if_neg (by omega : ¬(fq - position.qty ≤ 0)), if_neg hq0]
  constructor
  · rfl
  · rw [apply_ite OMState.open_positions]
    dsimp only
    rw [ite_self]
    exact alookup_aset_self _ _ _

/-- `updateOrderStatus` only touches the orders table (risk projection). -/
theorem updateOrderStatus_risk (s : OMState) (oid : ℕ) (st : String) :
    (s.updateOrderStatus oid st).risk = s.risk := rfl

/-- Evaluation of `.upper()` on the `COMPLETE` status value. -/
theorem pyStrUpper_complete : pyStrUpper (.vStr "COMPLETE") = .ok "COMPLETE" := rfl

/-- Evaluation of `.upper()` on the `PARTIALLY FILLED` status value. -/
theorem pyStrUpper_partially_filled :
    pyStrUpper (.vStr "PARTIALLY FILLED") = .ok "PARTIALLY FILLED" := rfl

/-- Evaluation of `.upper()` on the `OPEN` status value. -/
theorem pyStrUpper_open : pyStrUpper (.vStr "OPEN") = .ok "OPEN" := rfl

/-- C2.  Partial-fill accounting: an entry fill tracks the broker's
cumulative filled quantity (diffing the previously tracked quantity, not
re-adding), the position's average entry price is cumulative cost over
cumulative quantity, and the `PARTIALLY FILLED` 40 @ 100.00 then
`COMPLETE` 100 @ 100.60 scenario ends with quantity 100 at average price
100.60. -/
theorem C2_cumulative_fill_accounting :
    (∀ (s : OMState) (u : ParsedUpdate) (k : String) (oid : ℕ) (order : Order)
        (fq : ℤ) (fp : ℚ),
      u.orderid = some (.vStr k) →
      alookup s.active_orders k = some oid →
      oid ≠ 0 →
      (u.status = "COMPLETE" ∨ u.status = "PARTIALLY FILLED") →
      s.fetch_order oid = some order →
      alookup s.open_positions order.symbol = none →
      pyInt ((u.filledshares).getD (.vInt 0)) = .ok fq →
      pyFloat ((u.averageprice).getD (.vInt 0)) = .ok fp →
      fq ≠ 0 →
      (handle_order_update_core s u).2 = none ∧
      ∃ pos : Position,
        alookup (handle_order_update_core s u).1.open_positions order.symbol = some pos ∧
        pos.qty = fq ∧ pos.total_cost = (fq : ℚ) * fp ∧
        pos.entry_price = pos.total_cost / (pos.qty : ℚ)) ∧
    (∀ (s : OMState) (u : ParsedUpdate) (k : String) (oid : ℕ) (order : Order)
        (position : Position) (fq : ℤ) (fp : ℚ),
      u.orderid = some (.vStr k) →
      alookup s.active_orders k = some oid →
      oid ≠ 0 →
      (u.status = "COMPLETE" ∨ u.status = "PARTIALLY FILLED") →
      s.fetch_order oid = some order →
      alookup s.open_positions order.symbol = some position →
      position.side = order.side →
      pyInt ((u.filledshares).getD (.vInt 0)) = .ok fq →
      pyFloat ((u.averageprice).getD (.vInt 0)) = .ok fp →
      position.qty < fq →
      fq ≠ 0 →
      (handle_order_update_core s u).2 = none ∧
      ∃ pos2 : Position,
        alookup (handle_order_update_core s u).1.open_positions order.symbol = some pos2 ∧
        pos2.qty = fq ∧
        pos2.qty = position.qty + (fq - position.qty) ∧
        pos2.total_cost = fp * (fq : ℚ) ∧
        pos2.entry_price = pos2.total_cost / (pos2.qty : ℚ)) ∧
    ((handle_order_update (handle_order_update stFill updFill1).1 updFill2).1.open_positions.map
        (fun p => (p.1, p.2.qty, p.2.entry_price)) = [("TEST-PARTIAL-EQ", 100, 503/5)]) := by
  refine ⟨?_, ?_, ?_⟩
  · intro s u k oid order fq fp h1 h2 h3 h4 h5 hnone hfs hap hq
    have hroute := core_routes_to_entry s u k oid order h1 h2 h3 h4 h5
      (by intro pos hp; rw [hnone] at hp; cases hp)
    rw [hroute]
    have hnone2 : alookup (s.updateOrderStatus oid u.status).open_positions
        ({ order with status := u.status } : Order).symbol = none := by
      rw [updateOrderStatus_open_positions]; exact hnone
    obtain ⟨he, hl⟩ := entry_fill_first (s.updateOrderStatus oid u.status) u k oid
      { order with status := u.status } fq fp hfs hap hnone2
    have hq0 : (fq : ℚ) ≠ 0 := by simpa using hq
    exact ⟨he, _, hl, rfl, rfl, by
      show fp = (fq : ℚ) * fp / (fq : ℚ)
      rw [mul_div_cancel_left₀ fp hq0]⟩
  · intro s u k oid order position fq fp h1 h2 h3 h4 h5 hsome hside hfs hap hlt hq
    have hroute := core_routes_to_entry s u k oid order h1 h2 h3 h4 h5
      (by intro pos hp; rw [hsome] at hp; injection hp with hp; exact hp ▸ hside)
    rw [hroute]
    have hsome2 : alookup (s.updateOrderStatus oid u.status).open_positions
        ({ order with status := u.status } : Order).symbol = some position := by
      rw [updateOrderStatus_open_positions]; exact hsome
    obtain ⟨he, hl⟩ := entry_fill_subsequent (s.updateOrderStatus oid u.status) u k oid
      { order with status := u.status } fq fp position hfs hap hsome2 hlt hq
    refine ⟨he, _, hl, rfl, ?_, rfl, rfl⟩
    show fq = position.qty + (fq - position.qty)
    omega
  · simp +decide only [handle_order_update, parse_order_update, handle_order_update_core,
      entry_fill, dget, alookup, pyStrUpper_partially_filled, pyStrUpper_complete, pyFloat,
      pyInt, OMState.updateOrderStatus, OMState.fetch_order, stFill, updFill1, updFill2,
      emptyState, orderA, aset, aremove, List.find?, List.map, Option.getD, Option.isSome]
    norm_num

/-- Witness for C2 at the first scenario fill. -/
theorem C2_cumulative_fill_accounting_witness :
    (handle_order_update_core stFill
      { orderid := some (.vStr "B456"), status := "PARTIALLY FILLED",
        averageprice := some (.vNumStr 100), filledshares := some (.vNumStr 40) }).2 = none :=
  (C2_cumulative_fill_accounting.1 stFill
    { orderid := some (.vStr "B456"), status := "PARTIALLY FILLED",
      averageprice := some (.vNumStr 100), filledshares := some (.vNumStr 40) }
    "B456" 1 orderA 40 100 rfl rfl (by decide) (Or.inr rfl) rfl rfl rfl rfl (by decide)).1

/-- C3.  Exit-fill settlement: a `COMPLETE` fill on an order opposite to
the open position realizes P&L = (exit − entry) × qty for BUY (mirror for
SELL), removes the position, writes exactly one historical trade, and
feeds the P&L to the Risk Engine; the BUY 100 @ 100.50 closed at 102.00
scenario realizes 150.00 and raises equity to 100150. -/
theorem C3_exit_fill_settlement :
    (∀ (s : OMState) (u : ParsedUpdate) (k : String) (oid : ℕ) (order : Order)
        (position : Position) (xp : ℚ),
      u.orderid = some (.vStr k) →
      alookup s.active_orders k = some oid →
      oid ≠ 0 →
      u.status = "COMPLETE" →
      s.fetch_order oid = some order →
      alookup s.open_positions order.symbol = some position →
      position.side ≠ order.side →
      pyFloat ((u.averageprice).getD (.vInt 0)) = .ok xp →
      position.entry_price * (position.qty : ℚ) ≠ 0 →
      (handle_order_update_core s u).2 = none ∧
      (handle_order_update_core s u).1.historical_trades =
        s.historical_trades ++
          [{ symbol := order.symbol, side := position.side, qty := position.qty,
             entry_price := position.entry_price, exit_price := xp,
             pnl := if position.side = "BUY"
                    then (xp - position.entry_price) * (position.qty : ℚ)
                    else (position.entry_price - xp) * (position.qty : ℚ),
             pnl_percentage := (if position.side = "BUY"
                    then (xp - position.entry_price) * (position.qty : ℚ)
                    else (position.entry_price - xp) * (position.qty : ℚ)) /
                  (position.entry_price * (position.qty : ℚ)) * 100 }] ∧
      alookup (handle_order_update_core s u).1.open_positions order.symbol = none ∧
      (handle_order_update_core s u).1.risk =
        s.risk.record_trade (if position.side = "BUY"
          then (xp - position.entry_price) * (position.qty : ℚ)
          else (position.entry_price - xp) * (position.qty : ℚ)) ∧
      (handle_order_update_core s u).1.risk.equity =
        s.risk.equity + (if position.side = "BUY"
          then (xp - position.entry_price) * (position.qty : ℚ)
          else (position.entry_price - xp) * (position.qty : ℚ))) ∧
    ((handle_order_update stExit updExit).2 = none ∧
     (handle_order_update stExit updExit).1.historical_trades.map
        (fun t => (t.pnl, t.qty, t.entry_price, t.exit_price)) = [(150, 100, 201/2, 102)] ∧
     (handle_order_update stExit updExit).1.historical_trades.length = 1 ∧
     alookup (handle_order_update stExit updExit).1.open_positions "TEST-EQ" = none ∧
     (handle_order_update stExit updExit).1.risk.equity = 100150) := by
  have hgen : ∀ (s : OMState) (u : ParsedUpdate) (k : String) (oid : ℕ) (order : Order)
      (position : Position) (xp : ℚ),
      u.orderid = some (.vStr k) →
      alookup s.active_orders k = some oid →
      oid ≠ 0 →
      u.status = "COMPLETE" →
      s.fetch_order oid = some order →
      alookup s.open_positions order.symbol = some position →
      position.side ≠ order.side →
      pyFloat ((u.averageprice).getD (.vInt 0)) = .ok xp →
      position.entry_price * (position.qty : ℚ) ≠ 0 →
      (handle_order_update_core s u).2 = none ∧
      (handle_order_update_core s u).1.historical_trades =
        s.historical_trades ++
          [{ symbol := order.symbol, side := position.side, qty := position.qty,
             entry_price := position.entry_price, exit_price := xp,
             pnl := if position.side = "BUY"
                    then (xp - position.entry_price) * (position.qty : ℚ)
                    else (position.entry_price - xp) * (position.qty : ℚ),
             pnl_percentage := (if position.side = "BUY"
                    then (xp - position.entry_price) * (position.qty : ℚ)
                    else (position.entry_price - xp) * (position.qty : ℚ)) /
                  (position.entry_price * (position.qty : ℚ)) * 100 }] ∧
      alookup (handle_order_update_core s u).1.open_positions order.symbol = none ∧
      (handle_order_update_core s u).1.risk =
        s.risk.record_trade (if position.side = "BUY"
          then (xp - position.entry_price) * (position.qty : ℚ)
          else (position.entry_price - xp) * (position.qty : ℚ)) ∧
      (handle_order_update_core s u).1.risk.equity =
        s.risk.equity + (if position.side = "BUY"
          then (xp - position.entry_price) * (position.qty : ℚ)
          else (position.entry_price - xp) * (position.qty : ℚ)) := by
    intro s u k oid order position xp h1 h2 h3 h4 h5 h6 h7 h8 h9
    have h5b := fetch_order_updateOrderStatus s oid u.status order h5
    have hfill : (u.status == "COMPLETE" || u.status == "PARTIALLY FILLED") = true := by
      simp [h4]
    have hc : (u.status == "COMPLETE") = true := by simp [h4]
    have hside : (position.side == order.side) = false := by
      simp only [beq_eq_false_iff_ne, ne_eq]
      exact h7
    have hpnl : (if (position.side == "BUY") = true
          then (xp - position.entry_price) * (position.qty : ℚ)
          else (position.entry_price - xp) * (position.qty : ℚ)) =
        (if position.side = "BUY"
          then (xp - position.entry_price) * (position.qty : ℚ)
          else (position.entry_price - xp) * (position.qty : ℚ)) := by
      simp only [beq_iff_eq]
    unfold handle_order_update_core
    rw [h1]
    dsimp only
    rw [h2]
    dsimp only
    rw [if_neg h3]
    simp only [hfill, Bool.not_true, Bool.false_eq_true, if_false]
    rw [h5b]
    dsimp only
    rw [updateOrderStatus_open_positions, h6]
    dsimp only
    simp only [hside, Bool.not_false, if_true, hc]
    rw [h8]
    dsimp only
    rw [if_neg h9]
    rw [hpnl]
    refine ⟨rfl, rfl, alookup_aremove_self _ _, rfl, ?_⟩
    exact (record_trade_proj s.risk _).2.1
  refine ⟨hgen, ?_⟩
  have hh : handle_order_update stExit updExit =
      handle_order_update_core stExit
        { orderid := some (.vStr "B789"), status := "COMPLETE",
          averageprice := some (.vNumStr 102), filledshares := some (.vNumStr 100) } := rfl
  obtain ⟨he, hhist, hopen, _, heq⟩ :=
    hgen stExit
      { orderid := some (.vStr "B789"), status := "COMPLETE",
        averageprice := some (.vNumStr 102), filledshares := some (.vNumStr 100) }
      "B789" 1 orderClose posBuy 102 rfl rfl (by decide) rfl rfl rfl (by decide) rfl
      (by norm_num [posBuy])
  refine ⟨?_, ?_, ?_, ?_, ?_⟩
  · rw [hh]
    exact he
  · rw [hh, hhist]
    simp only [stExit, emptyState, orderClose, posBuy, List.nil_append, List.map_cons,
      List.map_nil]
    norm_num
  · rw [hh, hhist]
    simp [stExit, emptyState]
  · rw [hh]
    simpa [orderClose] using hopen
  · rw [hh, heq]
    norm_num [stExit, emptyState, RiskManager.init, posBuy, orderClose, cfg0]

/-- Projections unaffected by an order-table update commute with it. -/
theorem map_update_proj {β : Type} (g : Order → Order) (proj : Order → β) :
    ∀ l : List Order, (∀ o ∈ l, proj (g o) = proj o) →
      (l.map g).map proj = l.map proj := by
  intro l
  induction l with
  | nil => intro _; rfl
  | cons a as ih =>
    intro h
    simp only [List.map_cons]
    rw [h a (by simp), ih (fun o ho => h o (by simp [ho]))]

/-- Marking the freshly inserted order `FAILED` through the id-keyed
update leaves the other rows untouched. -/
theorem orders_failed_proj (base : List Order) (newOrder : Order) (nid : ℕ) (msg : String)
    (hnew : newOrder.id = nid)
    (hid : ∀ o ∈ base, o.id ≠ nid) :
    ((base ++ [newOrder]).map
        (fun o => if (o.id == nid) = true then { o with status := "FAILED", reason := some msg }
                  else o)).map (fun o => (o.id, o.status, o.reason)) =
      base.map (fun o => (o.id, o.status, o.reason)) ++ [(nid, "FAILED", some msg)] := by
  rw [List.map_append, List.map_append,
      map_update_proj _ _ base (by intro o ho; simp [beq_iff_eq, hid o ho])]
  simp [beq_iff_eq, hnew]

/-- Marking the freshly inserted order `SUBMITTED` through the id-keyed
update leaves the other rows untouched. -/
theorem orders_submitted_proj (base : List Order) (newOrder : Order) (nid : ℕ) (bid : String)
    (hnew : newOrder.id = nid)
    (hid : ∀ o ∈ base, o.id ≠ nid) :
    ((base ++ [newOrder]).map
        (fun o => if (o.id == nid) = true
                  then { o with status := "SUBMITTED", broker_order_id := some bid }
                  else o)).map (fun o => (o.id, o.status, o.broker_order_id)) =
      base.map (fun o => (o.id, o.status, o.broker_order_id)) ++
        [(nid, "SUBMITTED", some bid)] := by
  rw [List.map_append, List.map_append,
      map_update_proj _ _ base (by intro o ho; simp [beq_iff_eq, hid o ho])]
  simp [beq_iff_eq, hnew]

/-- `create_options_order` appends exactly one order, carrying the
signal's side and the given quantity, whatever the broker boundary does. -/
theorem create_options_order_sides (s : OMState) (env : BrokerEnv) (signal : Signal)
    (size : ℤ) :
    (create_options_order s env signal size).orders.map (fun o => (o.side, o.qty)) =
      s.orders.map (fun o => (o.side, o.qty)) ++ [(signal.side, size)] := by
  unfold create_options_order
  dsimp only
  split
  · dsimp only [OMState.setOrderFailed]
    rw [map_update_proj _ _ _
      (by intro o _; by_cases h : (o.id == s.orders.length + 1) = true <;> simp [h])]
    simp
  · split <;>
      dsimp only [OMState.setOrderSubmitted, OMState.setOrderFailed] <;>
      (rw [map_update_proj _ _ _
        (by intro o _; by_cases h : (o.id == s.orders.length + 1) = true <;> simp [h])]
       simp)

/-- With the instrument token resolved, `create_options_order` hands the
broker exactly one `MARKET`/`INTRADAY` request for the signal's side and
quantity. -/
theorem create_options_order_placed (s : OMState) (env : BrokerEnv) (signal : Signal)
    (size : ℤ) (tok : String)
    (htok : env.get_token signal.symbol "NFO" = some tok) :
    (create_options_order s env signal size).placed_params =
      s.placed_params ++
        [{ variety := "NORMAL", tradingsymbol := signal.symbol, symboltoken := tok,
           transactiontype := signal.side, exchange := "NFO", ordertype := "MARKET",
           producttype := "INTRADAY", duration := "DAY", quantity := toString size }] := by
  unfold create_options_order
  dsimp only
  rw [htok]
  dsimp only
  split <;> rfl

/-- Witness for C3 at the exit-fill scenario state. -/
theorem C3_exit_fill_settlement_witness :
    (handle_order_update_core stExit
      { orderid := some (.vStr "B789"), status := "COMPLETE",
        averageprice := some (.vNumStr 102), filledshares := some (.vNumStr 100) }).2 = none :=
  (C3_exit_fill_settlement.1 stExit
    { orderid := some (.vStr "B789"), status := "COMPLETE",
      averageprice := some (.vNumStr 102), filledshares := some (.vNumStr 100) }
    "B789" 1 orderClose posBuy 102 rfl rfl (by decide) rfl rfl rfl (by decide) rfl
    (by norm_num [posBuy])).1

/-- Witness for C6 at equity 100000, entry 100, stop 98, atr 1. -/
theorem C6_position_sizing_witness :
    (RiskManager.init cfg0 100000).calculate_position_size 100 98 1 =
      .ok (if |(100:ℚ) - 98| ≤ 1 / 1000000000 then 0
           else
             ⌊(if (1:ℚ) / 100 * 100 >
                  (RiskManager.init cfg0 100000).risk_params.volatility_adjustment.high_vol_threshold_percent
               then (RiskManager.init cfg0 100000).equity *
                    ((RiskManager.init cfg0 100000).risk_params.risk_per_trade_percent / 100) *
                    (RiskManager.init cfg0 100000).risk_params.volatility_adjustment.risk_reduction_factor
               else (RiskManager.init cfg0 100000).equity *
                    ((RiskManager.init cfg0 100000).risk_params.risk_per_trade_percent / 100)) /
              |(100:ℚ) - 98|⌋) :=
  C6_position_sizing.1 (RiskManager.init cfg0 100000) 100 98 1 (by norm_num)
    (by norm_num [RiskManager.init, cfg0]) (by norm_num [RiskManager.init, cfg0])

/-- When the token is missing, the new order row ends `FAILED` with
reason `TOKEN_NOT_FOUND` and no other row changes. -/
theorem create_options_order_token_missing (s : OMState) (env : BrokerEnv) (signal : Signal)
    (size : ℤ)
    (htok : env.get_token signal.symbol "NFO" = none)
    (hid : ∀ o ∈ s.orders, o.id ≠ s.orders.length + 1) :
    (create_options_order s env signal size).orders.map (fun o => (o.id, o.status, o.reason)) =
      s.orders.map (fun o => (o.id, o.status, o.reason)) ++
        [(s.orders.length + 1, "FAILED", some "TOKEN_NOT_FOUND")] := by
  unfold create_options_order
  dsimp only
  rw [htok]
  dsimp only [OMState.setOrderFailed]
  exact orders_failed_proj s.orders _ _ _ rfl hid

/-- When the broker acknowledges with an order id, the new order row ends
`SUBMITTED` carrying that id, and the id is registered in the
active-order index. -/
theorem create_options_order_submitted (s : OMState) (env : BrokerEnv) (signal : Signal)
    (size : ℤ) (tok bid : String)
    (htok : env.get_token signal.symbol "NFO" = some tok)
    (hres : env.place_order
        { variety := "NORMAL", tradingsymbol := signal.symbol, symboltoken := tok,
          transactiontype := signal.side, exchange := "NFO", ordertype := "MARKET",
          producttype := "INTRADAY", duration := "DAY", quantity := toString size } =
      .okOrder bid)
    (hid : ∀ o ∈ s.orders, o.id ≠ s.orders.length + 1) :
    (create_options_order s env signal size).orders.map
        (fun o => (o.id, o.status, o.broker_order_id)) =
      s.orders.map (fun o => (o.id, o.status, o.broker_order_id)) ++
        [(s.orders.length + 1, "SUBMITTED", some bid)] ∧
    alookup (create_options_order s env signal size).active_orders bid =
      some (s.orders.length + 1) := by
  unfold create_options_order
  dsimp only
  rw [htok]
  dsimp only
  rw [hres]
  dsimp only [OMState.setOrderSubmitted]
  exact ⟨orders_submitted_proj s.orders _ _ _ rfl hid, alookup_aset_self _ _ _⟩

/-- When the broker raises, answers falsy, or answers without an order
id, the new order row ends `FAILED` with the corresponding reason. -/
theorem create_options_order_broker_failed (s : OMState) (env : BrokerEnv) (signal : Signal)
    (size : ℤ) (tok msg : String)
    (htok : env.get_token signal.symbol "NFO" = some tok)
    (hid : ∀ o ∈ s.orders, o.id ≠ s.orders.length + 1)
    (hres : env.place_order
        { variety := "NORMAL", tradingsymbol := signal.symbol, symboltoken := tok,
          transactiontype := signal.side, exchange := "NFO", ordertype := "MARKET",
          producttype := "INTRADAY", duration := "DAY", quantity := toString size } =
        .raised msg ∨
      env.place_order
        { variety := "NORMAL", tradingsymbol := signal.symbol, symboltoken := tok,
          transactiontype := signal.side, exchange := "NFO", ordertype := "MARKET",
          producttype := "INTRADAY", duration := "DAY", quantity := toString size } =
        .noOrderId msg ∨
      (env.place_order
        { variety := "NORMAL", tradingsymbol := signal.symbol, symboltoken := tok,
          transactiontype := signal.side, exchange := "NFO", ordertype := "MARKET",
          producttype := "INTRADAY", duration := "DAY", quantity := toString size } =
        .respFalsy ∧ msg = "NO_RESPONSE")) :
    (create_options_order s env signal size).orders.map (fun o => (o.id, o.status, o.reason)) =
      s.orders.map (fun o => (o.id, o.status, o.reason)) ++
        [(s.orders.length + 1, "FAILED", some msg)] := by
  unfold create_options_order
  dsimp only
  rw [htok]
  dsimp only
  rcases hres with h | h | ⟨h, rfl⟩ <;>
    rw [h] <;>
    dsimp only [OMState.setOrderFailed] <;>
    exact orders_failed_proj s.orders _ _ _ rfl hid

/-- C4 (amended).  `handle_signal` rejects, leaving state untouched, when
a position exists for the symbol or when `can_place_trade()` is false;
any signal passing both checks then evaluates `settings.risk.max_positions`,
an attribute `RiskConfig` does not declare, so `AttributeError` propagates
before sizing and no order is ever created through `handle_signal` (the
sizing helper itself always returns 0, its `get_account_balance` call
being undefined on `RiskManager`); `create_options_order`, the placement
path, does create a `PENDING` order and transitions it to `SUBMITTED`
with the broker id, or to `FAILED` with a reason on token or submission
failure. -/
theorem C4_signal_gating :
    (∀ (s : OMState) (env : BrokerEnv) (cfg : RiskConfig) (signal : Signal),
      (alookup s.open_positions signal.symbol).isSome = true →
      handle_signal s env cfg signal = (s, none)) ∧
    (∀ (s : OMState) (env : BrokerEnv) (cfg : RiskConfig) (signal : Signal),
      (alookup s.open_positions signal.symbol).isSome = false →
      s.risk.can_place_trade = false →
      handle_signal s env cfg signal = (s, none)) ∧
    (∀ (s : OMState) (env : BrokerEnv) (cfg : RiskConfig) (signal : Signal),
      (alookup s.open_positions signal.symbol).isSome = false →
      s.risk.can_place_trade = true →
      handle_signal s env cfg signal =
        (s, some "AttributeError: RiskConfig object has no attribute max_positions")) ∧
    (∀ (cfg : RiskConfig) (signal : Signal), calculate_options_position_size cfg signal = 0) ∧
    (∀ (s : OMState) (env : BrokerEnv) (signal : Signal) (size : ℤ),
      env.get_token signal.symbol "NFO" = none →
      (∀ o ∈ s.orders, o.id ≠ s.orders.length + 1) →
      (create_options_order s env signal size).orders.map
          (fun o => (o.id, o.status, o.reason)) =
        s.orders.map (fun o => (o.id, o.status, o.reason)) ++
          [(s.orders.length + 1, "FAILED", some "TOKEN_NOT_FOUND")]) := by
  refine ⟨?_, ?_, ?_, ?_, ?_⟩
  · intro s env cfg signal h
    unfold handle_signal
    rw [h]
    rfl
  · intro s env cfg signal h1 h2
    unfold handle_signal
    rw [h1, h2]
    rfl
  · intro s env cfg signal h1 h2
    unfold handle_signal
    rw [h1, h2]
    rfl
  · intro cfg signal
    unfold calculate_options_position_size calculate_options_position_size_body
    cases signal.entry <;> rfl
  · exact fun s env signal size htok hid =>
      create_options_order_token_missing s env signal size htok hid

/-- Witness for C4 at a state whose symbol already has an open position. -/
theorem C4_signal_gating_witness :
    handle_signal stOnePos envOk cfg0 sigBank = (stOnePos, none) :=
  C4_signal_gating.1 stOnePos envOk cfg0 sigBank rfl

/-- Counterexample to C4 as stated: a signal with no open position for
its symbol and trading allowed does not get sized or placed and is not
cleanly dropped — `handle_signal` raises `AttributeError` at the
`settings.risk.max_positions` access. -/
theorem C4_signal_gating_counterexample :
    handle_signal emptyState envOk cfg0 sigNifty =
      (emptyState, some "AttributeError: RiskConfig object has no attribute max_positions") :=
  rfl

/-- C9 (amended).  `close_position` always synthesizes a `SELL` market
order — the opposite side only for BUY positions — for the full open
quantity, routed through `create_options_order`, the same placement
function signals use. -/
theorem C9_close_position_always_sell :
    (∀ (s : OMState) (env : BrokerEnv) (position : Position) (why : String),
      (close_position s env position why).orders.map (fun o => (o.side, o.qty)) =
        s.orders.map (fun o => (o.side, o.qty)) ++ [("SELL", position.qty)]) ∧
    (∀ (s : OMState) (env : BrokerEnv) (position : Position) (why : String) (tok : String),
      env.get_token position.symbol "NFO" = some tok →
      (close_position s env position why).placed_params =
        s.placed_params ++
          [{ variety := "NORMAL", tradingsymbol := position.symbol, symboltoken := tok,
             transactiontype := "SELL", exchange := "NFO", ordertype := "MARKET",
             producttype := "INTRADAY", duration := "DAY",
             quantity := toString position.qty }]) := by
  constructor
  · intro s env position why
    unfold close_position
    exact create_options_order_sides s env _ position.qty
  · intro s env position why tok htok
    unfold close_position
    exact create_options_order_placed s env _ position.qty tok htok

/-- Witness for C9 on a concrete SELL position with a resolvable token. -/
theorem C9_close_position_always_sell_witness :
    (close_position emptyState envOk posSell "TP").placed_params =
      emptyState.placed_params ++
        [{ variety := "NORMAL", tradingsymbol := posSell.symbol, symboltoken := "40612",
           transactiontype := "SELL", exchange := "NFO", ordertype := "MARKET",
           producttype := "INTRADAY", duration := "DAY",
           quantity := toString posSell.qty }] :=
  C9_close_position_always_sell.2 emptyState envOk posSell "TP" "40612" rfl

/-- Counterexample to C9 as stated: closing an open SELL position
synthesizes a `SELL` order, not the opposite (`BUY`) order the claim
requires. -/
theorem C9_close_position_counterexample :
    (close_position emptyState envOk posSell "STOP_LOSS").orders.map Order.side = ["SELL"] ∧
    ((close_position emptyState envOk posSell "STOP_LOSS").orders.map Order.side == ["BUY"])
      = false :=
  ⟨rfl, rfl⟩

/-- The market-data loop drains every message: its per-message handler
catches all exceptions internally. -/
theorem process_market_data_drains (msgs : List PyMsg) :
    ∀ e : EngineState, (process_market_data e msgs).2 = none := by
  induction msgs with
  | nil => intro e; rfl
  | cons m ms ih => intro e; exact ih (aggregate_tick_to_candle e m)

/-- A raising message terminates an outer-`try` consumer loop, leaving the
rest of the queue unprocessed. -/
theorem process_order_updates_stops (s : OMState) (m : PyMsg) (rest : List PyMsg)
    (h : (handle_order_update s m).2.isSome = true) :
    process_order_updates s (m :: rest) = ((handle_order_update s m).1, some rest) := by
  unfold process_order_updates runConsumerLoop
  rcases hh : handle_order_update s m with ⟨s1, eo⟩
  cases eo with
  | none => rw [hh] at h; simp at h
  | some err => rfl

/-- C8 (amended).  A malformed tick cannot stop the market-data loop:
`_aggregate_tick_to_candle` catches every exception per message, the tick
is skipped, and the loop drains the whole queue; but the order-update
loop wraps its `try` around the entire `async for`, so one order-update
message that raises inside `handle_order_update` ends that loop with the
remaining messages unprocessed. -/
theorem C8_malformed_message_resilience :
    (∀ (e : EngineState) (msgs : List PyMsg), (process_market_data e msgs).2 = none) ∧
    (∀ (e : EngineState) (d : String), aggregate_tick_to_candle e (.other d) = e) ∧
    (∀ (e : EngineState) (entries : List (String × PyVal)) (g : String),
      dget entries "exchange_timestamp" = some (.vStr g) →
      aggregate_tick_to_candle e (.dict entries) = e) ∧
    (∀ (s : OMState) (m : PyMsg) (rest : List PyMsg),
      (handle_order_update s m).2.isSome = true →
      process_order_updates s (m :: rest) = ((handle_order_update s m).1, some rest)) := by
  refine ⟨fun e msgs => process_market_data_drains msgs e, fun e d => rfl, ?_,
    process_order_updates_stops⟩
  intro e entries g hts
  unfold aggregate_tick_to_candle aggregate_tick_to_candle_body
  dsimp only
  rw [hts]
  rfl

/-- Witness for C8: the malformed order update (integer `status`) stops
the loop before the following well-formed message. -/
theorem C8_malformed_message_resilience_witness :
    process_order_updates stLoop [badOrderMsg, goodOrderMsg] =
      ((handle_order_update stLoop badOrderMsg).1, some [goodOrderMsg]) :=
  C8_malformed_message_resilience.2.2.2 stLoop badOrderMsg [goodOrderMsg] rfl

/-- Counterexample to C8 as stated: after the malformed update, the
well-formed `goodOrderMsg` is left unprocessed — the consuming loop did
not continue. -/
theorem C8_malformed_message_resilience_counterexample :
    (process_order_updates stLoop [badOrderMsg, goodOrderMsg]).2 = some [goodOrderMsg] := rfl

/-- A minute bucket built from ticks of one completed minute contains no
tick of the current minute. -/
theorem filter_cur_lt_nil (cur : ℕ) : ∀ l : List SpecTick,
    (l.filter (fun t => t.ts / 60 == cur)).filter (fun t => t.ts / 60 < cur) = [] := by
  intro l
  induction l with
  | nil => rfl
  | cons t ts ih =>
    by_cases h : (t.ts / 60 == cur) = true
    · have ht : t.ts / 60 = cur := by simpa using h
      simp [List.filter_cons, h, ht, ih]
    · have h2 : (t.ts / 60 == cur) = false := by simpa using h
      simp [List.filter_cons, h2, ih]

/-- `foldl max` stays below a strict upper bound of its inputs. -/
theorem foldl_max_lt (c : ℕ) : ∀ (l : List ℕ) (a : ℕ),
    a < c → (∀ x ∈ l, x < c) → l.foldl max a < c := by
  intro l
  induction l with
  | nil => intro a ha _; simpa using ha
  | cons x xs ih =>
    intro a ha hx
    simp only [List.foldl_cons]
    refine ih (max a x) ?_ (fun y hy => hx y (by simp [hy]))
    rw [max_lt_iff]
    exact ⟨ha, hx x (by simp)⟩

/-- The minute key of a spec candle. -/
theorem mkSpecCandle_minute (sym : String) (m : ℕ) (ps : List ℚ) :
    (mkSpecCandle sym m ps).minute = m := by cases ps <;> rfl

/-- The symbol key of a spec candle. -/
theorem mkSpecCandle_symbol (sym : String) (m : ℕ) (ps : List ℚ) :
    (mkSpecCandle sym m ps).symbol = sym := by cases ps <;> rfl

/-- C7.  `get_1m_candle` returns only a completed minute (strictly before
the minute `now` falls in); an immediately repeated call for the same
minute is a no-op on the state; and the store keeps at most one candle
per symbol+minute — the existence check before persisting preserves the
at-most-once property. -/
theorem C7_candle_idempotence :
    (∀ (st : MDStore) (sym : String) (now : ℕ) (st1 : MDStore) (c : SpecCandle),
      get_1m_candle st sym now = (st1, some c) → c.minute < now / 60) ∧
    (∀ (st : MDStore) (sym : String) (now : ℕ),
      get_1m_candle (get_1m_candle st sym now).1 sym now = ((get_1m_candle st sym now).1, none)) ∧
    (∀ (st : MDStore) (sym : String) (now : ℕ) (m0 : ℕ),
      st.candle_store.countP (fun k => k.symbol == sym && k.minute == m0) ≤ 1 →
      (get_1m_candle st sym now).1.candle_store.countP
        (fun k => k.symbol == sym && k.minute == m0) ≤ 1) := by
  refine ⟨?_, ?_, ?_⟩
  · intro st sym now st1 c h
    unfold get_1m_candle at h
    dsimp only at h
    cases hcomp : ((alookup st.buffers sym).getD []).filter (fun t => t.ts / 60 < now / 60) with
    | nil =>
      rw [hcomp] at h
      have := congrArg Prod.snd h
      simp at this
    | cons t0 ts0 =>
      rw [hcomp] at h
      have hc := congrArg Prod.snd h
      simp only [Prod.snd, Option.some.injEq] at hc
      have hmem : ∀ x ∈ t0 :: ts0, x.ts / 60 < now / 60 := by
        intro x hx
        rw [← hcomp] at hx
        have := List.of_mem_filter hx
        simpa using this
      rw [← hc, mkSpecCandle_minute]
      refine foldl_max_lt _ _ _ (hmem t0 (by simp)) ?_
      intro x hx
      obtain ⟨t, ht, rfl⟩ := List.mem_map.mp hx
      exact hmem t (by simp [ht])
  · intro st sym now
    rcases h1 : get_1m_candle st sym now with ⟨st1, co⟩
    dsimp only
    unfold get_1m_candle at h1
    dsimp only at h1
    cases hcomp : ((alookup st.buffers sym).getD []).filter (fun t => t.ts / 60 < now / 60) with
    | nil =>
      rw [hcomp] at h1
      injection h1 with h1a h1b
      subst h1a
      unfold get_1m_candle
      dsimp only
      rw [hcomp]
    | cons t0 ts0 =>
      rw [hcomp] at h1
      injection h1 with h1a h1b
      subst h1a
      unfold get_1m_candle
      dsimp only
      rw [alookup_aset_self]
      dsimp only [Option.getD]
      rw [filter_cur_lt_nil]
  · intro st sym now m0 h
    unfold get_1m_candle
    dsimp only
    cases hcomp : ((alookup st.buffers sym).getD []).filter (fun t => t.ts / 60 < now / 60) with
    | nil =>
      exact h
    | cons t0 ts0 =>
      dsimp only
      generalize hM : (ts0.map (fun t => t.ts / 60)).foldl max (t0.ts / 60) = M
      generalize hC : mkSpecCandle sym M
        (((t0 :: ts0).filter (fun t => t.ts / 60 == M)).map (fun t => t.price)) = C
      have hCmin : C.minute = M := by rw [← hC]; exact mkSpecCandle_minute sym M _
      split
      · exact h
      · next hS =>
        rw [List.countP_append]
        have hS2 : st.candle_store.any (fun k => k.symbol == sym && k.minute == M) = false := by
          simpa using hS
        have hzero : ∀ k ∈ st.candle_store,
            ¬((k.symbol == sym && k.minute == M) = true) := by
          intro k hk hkp
          have hany : st.candle_store.any (fun k => k.symbol == sym && k.minute == M) = true := by
            rw [List.any_eq_true]
            exact ⟨k, hk, hkp⟩
          rw [hS2] at hany
          simp at hany
        by_cases hm0 : m0 = M
        · subst hm0
          have h0 : st.candle_store.countP (fun k => k.symbol == sym && k.minute == m0) = 0 := by
            rw [List.countP_eq_zero]
            exact hzero
          have hC1 : List.countP (fun k => k.symbol == sym && k.minute == m0) [C] ≤ 1 := by
            rw [List.countP_cons, List.countP_nil]
            split <;> simp
          omega
        · have hCm : (C.minute == m0) = false := by
            rw [hCmin]
            simp only [beq_eq_false_iff_ne, ne_eq]
            exact fun hEq => hm0 hEq.symm
          have hC0 : List.countP (fun k => k.symbol == sym && k.minute == m0) [C] = 0 := by
            rw [List.countP_cons, List.countP_nil]
            simp [hCm]
          omega

/-- Witness for C7 on a buffer with two completed-minute ticks and one
in-progress tick. -/
theorem C7_candle_idempotence_witness :
    (get_1m_candle mdStore0 "NIFTY" 125).1.candle_store.countP
      (fun k => k.symbol == "NIFTY" && k.minute == 1) ≤ 1 :=
  C7_candle_idempotence.2.2 mdStore0 "NIFTY" 125 1 (by decide)

/-- C10 (code bug).  The account-wide position cap `handle_signal` checks
before sizing reads `settings.risk.max_positions`, but `RiskConfig`
declares no `max_positions` field, so the check can never perform the
intended silent drop: every signal that reaches it raises
`AttributeError`, whatever the open-position count. -/
theorem C10_max_positions_gate_raises :
    RiskConfig.fieldNames.contains "max_positions" = false ∧
    riskAttrMaxPositions =
      .error "AttributeError: RiskConfig object has no attribute max_positions" ∧
    handle_signal stOnePos envOk cfg0 sigNifty =
      (stOnePos, some "AttributeError: RiskConfig object has no attribute max_positions") :=
  ⟨rfl, rfl, rfl⟩

end Webportal
